import Mathlib

/-!
Shallow embedding of the `lifetime-gats` library (`src/lib.rs`).

Rust lifetimes are compile-time-only tags with no runtime content, so the
runtime model erases them: a borrow (`&T` or `&'a mut T`) is represented by
the address bits it carries, memory is a map from addresses to machine
words, and `mem::transmute` between two types of the same size is the
identity on bit patterns.  Type-level facts that the claims talk about (the
variance of the wrapper structs in their two parameters, and the trait
bounds on the `Deref`/`DerefMut` impls) are embedded separately as
computations over small grammars of the Rust types involved, translated
from the struct and impl headers of the source.
-/

/-- Runtime memory: a map from addresses to machine words. -/
abbrev Mem : Type := Nat → Nat

/-- Read the word stored at address `a`. -/
def readMem (m : Mem) (a : Nat) : Nat := m a

/-- Write the word `v` at address `a`. -/
def writeMem (m : Mem) (a v : Nat) : Mem := fun x => if x = a then v else m x

/-- Semantics of `mem::transmute` between two types of the same size, as used
by all the built-in `LifetimeCast` impls of the library (`src/lib.rs`, lines
128-152): a raw bit-layout reinterpretation that returns the bit pattern of
its argument unchanged. -/
def transmute (bits : Nat) : Nat := bits

/-- Evidence that a type is `Copy` (trivially duplicable): duplication is
bit-for-bit, i.e. the identity on the runtime representation. -/
structure Copy (α : Type) where
  copy : α → α
  copy_bitwise : ∀ a, copy a = a

/-- Runtime content of the trait `LifetimeCast<'dest>` (`src/lib.rs`, lines
47-67).  `α` is the runtime representation of `Self`, `β` the representation
of the associated type `Target` (the same structural shape with its lifetime
parameter replaced by `'dest`).  `cast` consumes the value; `cast_reference`
models `&self -> &Self::Target` by the value the returned reference
designates; `cast_reference_mut` likewise for `&mut self -> &mut Self::Target`. -/
structure LifetimeCast (α β : Type) where
  cast : α → β
  cast_reference : α → β
  cast_reference_mut : α → β

/-- Runtime content of `pub struct Reference<'a, T: 'a>(T, PhantomData<&'a mut T>)`
(`src/lib.rs`, line 17): one stored value of type `T` plus the zero-sized
`PhantomData` field.  The lifetime `'a` is erased. -/
structure Reference (α : Type) where
  val : α
  phantom : Unit

/-- Runtime content of `pub struct ReferenceMut<'a, T: 'a>(T, PhantomData<&'a mut T>)`
(`src/lib.rs`, line 23). -/
structure ReferenceMut (α : Type) where
  val : α
  phantom : Unit

/-- The constructor `Reference::new` (`src/lib.rs`, lines 77-82):
`Reference(s.cast(), PhantomData)`, where `s : T` with
`T : 'a + LifetimeCast<'static>` and the result is `Reference<'a, T::Target>`. -/
def Reference.new {α β : Type} (L : LifetimeCast α β) (s : α) : Reference β :=
  ⟨L.cast s, ()⟩

/-- The constructor `ReferenceMut::new` (`src/lib.rs`, lines 89-94):
`ReferenceMut(s.cast(), PhantomData)`. -/
def ReferenceMut.new {α β : Type} (L : LifetimeCast α β) (s : α) : ReferenceMut β :=
  ⟨L.cast s, ()⟩

/-- The body of `impl<T: LifetimeCast<'a> + Copy> Deref for Reference<'a, T>`
(`src/lib.rs`, lines 97-105): `self.0.cast_reference()`.  The argument `c`
mirrors the `T: Copy` bound of the impl header; the result is the value seen
through the returned `&T::Target`. -/
def Reference.deref {α γ : Type} (c : Copy α) (L : LifetimeCast α γ)
    (r : Reference α) : γ :=
  L.cast_reference r.val

/-- The body of `impl<T: LifetimeCast<'a> + Copy> Deref for ReferenceMut<'a, T>`
(`src/lib.rs`, lines 107-115): `self.0.cast_reference()`. -/
def ReferenceMut.deref {α γ : Type} (c : Copy α) (L : LifetimeCast α γ)
    (r : ReferenceMut α) : γ :=
  L.cast_reference r.val

/-- The body of `impl<T: LifetimeCast<'a> + Copy> DerefMut for ReferenceMut<'a, T>`
(`src/lib.rs`, lines 117-126): `self.0.cast_reference_mut()`.  The result is
the value designated by the returned `&mut T::Target`, the place through
which the caller subsequently writes. -/
def ReferenceMut.deref_mut {α γ : Type} (c : Copy α) (L : LifetimeCast α γ)
    (r : ReferenceMut α) : γ :=
  L.cast_reference_mut r.val

/-- The built-in `unsafe impl<T: 'static> LifetimeCast<'b> for &'a T`
(`src/lib.rs`, lines 128-139): all three operations are `mem::transmute` of
the borrow.  A shared borrow is represented by its address bits. -/
def sharedBorrowCast : LifetimeCast Nat Nat :=
  { cast := transmute, cast_reference := transmute, cast_reference_mut := transmute }

/-- The built-in `unsafe impl<T: 'static> LifetimeCast<'b> for &'a mut T`
(`src/lib.rs`, lines 141-152): all three operations are `mem::transmute` of
the borrow. -/
def mutBorrowCast : LifetimeCast Nat Nat :=
  { cast := transmute, cast_reference := transmute, cast_reference_mut := transmute }

/-- Copy evidence for the representation of a shared borrow (`&'a T` is
`Copy` in Rust); duplication of the address bits is the identity. -/
def copyBorrowBits : Copy Nat := ⟨fun a => a, fun _ => rfl⟩

/-- Writing `w` through the place returned by `ReferenceMut::deref_mut` for a
built-in borrow impl: `deref_mut` returns `self.0.cast_reference_mut()`,
which is `mem::transmute(&mut self.0)` — a `&mut T::Target` aliasing the
wrapper's own storage slot with an unchanged address — so an assignment
through it stores the bits of `w` into the slot `self.0`. -/
def mutAssign (r : ReferenceMut Nat) (w : Nat) : ReferenceMut Nat :=
  ⟨w, r.phantom⟩

/-- Grammar of the Rust types relevant to the impl bounds of the library:
the payload `u32`, shared borrows and exclusive borrows (carrying the
generic lifetime that the wrapper erases). -/
inductive RustTy where
  | u32
  | sharedRef (t : RustTy)
  | mutRef (t : RustTy)
deriving DecidableEq

/-- Whether a type of the grammar satisfies `T: 'static`.  In this grammar
the borrow constructors carry the generic borrow lifetime, so exactly the
borrow-free types are `'static`. -/
def RustTy.isStatic : RustTy → Bool
  | .u32 => true
  | .sharedRef _ => false
  | .mutRef _ => false

/-- Whether a type of the grammar is `Copy`: `u32` is `Copy`, shared borrows
are always `Copy`, exclusive borrows are never `Copy`. -/
def RustTy.isCopy : RustTy → Bool
  | .u32 => true
  | .sharedRef _ => true
  | .mutRef _ => false

/-- Which types the library's built-in `LifetimeCast` impls cover
(`src/lib.rs`, lines 128 and 141): `&'a T` and `&'a mut T` for `T: 'static`. -/
def hasLifetimeCastImpl : RustTy → Bool
  | .u32 => false
  | .sharedRef t => t.isStatic
  | .mutRef t => t.isStatic

/-- Head of `impl<T: LifetimeCast<'a> + Copy> Deref for Reference<'a, T>`
(`src/lib.rs`, line 97), restricted to the built-in `LifetimeCast` impls:
read access through the immutable wrapper exists for `T` exactly when `T`
has the capability and is `Copy`. -/
def referenceDerefAvailable (t : RustTy) : Bool :=
  hasLifetimeCastImpl t && t.isCopy

/-- Head of `impl<T: LifetimeCast<'a> + Copy> Deref for ReferenceMut<'a, T>`
(`src/lib.rs`, line 107), restricted to the built-in `LifetimeCast` impls. -/
def referenceMutDerefAvailable (t : RustTy) : Bool :=
  hasLifetimeCastImpl t && t.isCopy

/-- Head of `impl<T: LifetimeCast<'a> + Copy> DerefMut for ReferenceMut<'a, T>`
(`src/lib.rs`, line 117), restricted to the built-in `LifetimeCast` impls:
`DerefMut` also requires the same-bounded `Deref` impl. -/
def referenceMutDerefMutAvailable (t : RustTy) : Bool :=
  hasLifetimeCastImpl t && t.isCopy

/-- Variance values of the Rust variance lattice. -/
inductive Variance where
  | bivariant
  | covariant
  | contravariant
  | invariant
deriving DecidableEq

/-- Rust's variance transform: the variance of an occurrence nested in a
position of variance `v` inside an ambient context of variance `self`. -/
def Variance.xform : Variance → Variance → Variance
  | .covariant, v => v
  | .contravariant, .covariant => .contravariant
  | .contravariant, .contravariant => .covariant
  | .contravariant, .invariant => .invariant
  | .contravariant, .bivariant => .bivariant
  | .invariant, _ => .invariant
  | .bivariant, _ => .bivariant

/-- Greatest lower bound in the variance lattice (`bivariant` on top,
`invariant` at the bottom, `covariant` and `contravariant` incomparable):
how the variances of several occurrences of one parameter combine. -/
def Variance.glb : Variance → Variance → Variance
  | .bivariant, v => v
  | v, .bivariant => v
  | .covariant, .covariant => .covariant
  | .contravariant, .contravariant => .contravariant
  | _, _ => .invariant

/-- Grammar of the type expressions appearing in the wrapper struct bodies:
a type parameter, a shared or exclusive reference carrying a lifetime
parameter, and `PhantomData`. -/
inductive TyExpr where
  | param (i : Nat)
  | ref (l : Nat) (t : TyExpr)
  | refMut (l : Nat) (t : TyExpr)
  | phantomData (t : TyExpr)

/-- Variance of type parameter `i` in a type expression read at ambient
variance `amb`, per Rust's rules: the referent of `&` is in covariant
position, the referent of `&mut` is in invariant position, and
`PhantomData<X>` contributes exactly as a field of type `X` would. -/
def TyExpr.tyParamVariance : TyExpr → Variance → Nat → Variance
  | .param j, amb, i => if j = i then amb else .bivariant
  | .ref _ t, amb, i => t.tyParamVariance amb i
  | .refMut _ t, amb, i => t.tyParamVariance (amb.xform .invariant) i
  | .phantomData t, amb, i => t.tyParamVariance amb i

/-- Variance of lifetime parameter `l` in a type expression read at ambient
variance `amb`: the lifetime of both `&` and `&mut` is in covariant
position. -/
def TyExpr.ltParamVariance : TyExpr → Variance → Nat → Variance
  | .param _, _, _ => .bivariant
  | .ref l t, amb, i =>
      Variance.glb (if l = i then amb else .bivariant) (t.ltParamVariance amb i)
  | .refMut l t, amb, i =>
      Variance.glb (if l = i then amb else .bivariant)
        (t.ltParamVariance (amb.xform .invariant) i)
  | .phantomData t, amb, i => t.ltParamVariance amb i

/-- Variance of type parameter `i` of a struct: the combination over all
fields, each read at ambient covariant position, starting from `bivariant`
(unused). -/
def structTyParamVariance (fields : List TyExpr) (i : Nat) : Variance :=
  fields.foldl (fun acc t => acc.glb (t.tyParamVariance .covariant i)) .bivariant

/-- Variance of lifetime parameter `i` of a struct. -/
def structLtParamVariance (fields : List TyExpr) (i : Nat) : Variance :=
  fields.foldl (fun acc t => acc.glb (t.ltParamVariance .covariant i)) .bivariant

/-- The fields of `struct Reference<'a, T: 'a>(T, PhantomData<&'a mut T>)`
(`src/lib.rs`, line 17), with `'a` as lifetime parameter 0 and `T` as type
parameter 0. -/
def Reference.fields : List TyExpr :=
  [.param 0, .phantomData (.refMut 0 (.param 0))]

/-- The fields of `struct ReferenceMut<'a, T: 'a>(T, PhantomData<&'a mut T>)`
(`src/lib.rs`, line 23). -/
def ReferenceMut.fields : List TyExpr :=
  [.param 0, .phantomData (.refMut 0 (.param 0))]

/-- Runtime errors a Rust operation could raise (a panic with a message);
used to state that the library's operations raise none. -/
inductive RuntimeErr where
  | panicked (msg : String)

/-- `Reference::new` translated into the error monad: its body contains no
failure point (no panic, no fallible call), so it is the pure computation. -/
def Reference.newE {α β : Type} (L : LifetimeCast α β) (s : α) :
    Except RuntimeErr (Reference β) :=
  .ok ⟨L.cast s, ()⟩

/-- `ReferenceMut::new` translated into the error monad. -/
def ReferenceMut.newE {α β : Type} (L : LifetimeCast α β) (s : α) :
    Except RuntimeErr (ReferenceMut β) :=
  .ok ⟨L.cast s, ()⟩

/-- `<Reference as Deref>::deref` translated into the error monad. -/
def Reference.derefE {α γ : Type} (c : Copy α) (L : LifetimeCast α γ)
    (r : Reference α) : Except RuntimeErr γ :=
  .ok (L.cast_reference r.val)

/-- `<ReferenceMut as Deref>::deref` translated into the error monad. -/
def ReferenceMut.derefE {α γ : Type} (c : Copy α) (L : LifetimeCast α γ)
    (r : ReferenceMut α) : Except RuntimeErr γ :=
  .ok (L.cast_reference r.val)

/-- `<ReferenceMut as DerefMut>::deref_mut` translated into the error monad. -/
def ReferenceMut.derefMutE {α γ : Type} (c : Copy α) (L : LifetimeCast α γ)
    (r : ReferenceMut α) : Except RuntimeErr γ :=
  .ok (L.cast_reference_mut r.val)

/-- `Reference::new` translated with explicit memory passing: its body
performs no store to memory, so the state component is returned unchanged. -/
def Reference.newS {α β : Type} (L : LifetimeCast α β) (s : α) (m : Mem) :
    Reference β × Mem :=
  (⟨L.cast s, ()⟩, m)

/-- `ReferenceMut::new` with explicit memory passing. -/
def ReferenceMut.newS {α β : Type} (L : LifetimeCast α β) (s : α) (m : Mem) :
    ReferenceMut β × Mem :=
  (⟨L.cast s, ()⟩, m)

/-- `<Reference as Deref>::deref` with explicit memory passing. -/
def Reference.derefS {α γ : Type} (c : Copy α) (L : LifetimeCast α γ)
    (r : Reference α) (m : Mem) : γ × Mem :=
  (L.cast_reference r.val, m)

/-- `<ReferenceMut as Deref>::deref` with explicit memory passing. -/
def ReferenceMut.derefS {α γ : Type} (c : Copy α) (L : LifetimeCast α γ)
    (r : ReferenceMut α) (m : Mem) : γ × Mem :=
  (L.cast_reference r.val, m)

/-- `<ReferenceMut as DerefMut>::deref_mut` with explicit memory passing. -/
def ReferenceMut.derefMutS {α γ : Type} (c : Copy α) (L : LifetimeCast α γ)
    (r : ReferenceMut α) (m : Mem) : γ × Mem :=
  (L.cast_reference_mut r.val, m)

/-- Claim C1: wrapping a plain read-only borrow of a fixed payload with
`Reference::new` and reading through the wrapper's dereference yields a
reference designating the same payload, so the read-back value equals the
original payload value bit-for-bit (wrap-then-read is the identity on the
underlying data); concretely, a payload holding 10 reads back as 10. -/
theorem c1_wrap_then_read_identity :
    (∀ (m : Mem) (p : Nat),
      readMem m (Reference.deref copyBorrowBits sharedBorrowCast
        (Reference.new sharedBorrowCast p)) = readMem m p)
    ∧ readMem (writeMem (fun _ => 0) 7 10)
        (Reference.deref copyBorrowBits sharedBorrowCast
          (Reference.new sharedBorrowCast 7)) = 10 := by
  refine ⟨fun m p => rfl, ?_⟩
  simp [readMem, writeMem, Reference.deref, Reference.new, sharedBorrowCast,
    transmute]

/-- Claim C2 (code bug): the `DerefMut` impl for `ReferenceMut` requires
`T: Copy`, and `&'static mut u32` is not `Copy`, so the write accessor is
statically unavailable for a wrapped plain exclusive borrow (first
conjunct).  Were the bound satisfied, the runtime semantics of the accessor
(`cast_reference_mut` = `mem::transmute`, a bit identity) would alias the
original payload: writing `v` through it and then reading the payload
address directly yields `v` (second conjunct). -/
theorem c2_write_through_mut_wrapper :
    referenceMutDerefMutAvailable (RustTy.mutRef RustTy.u32) = false
    ∧ (∀ (m : Mem) (p v : Nat),
        readMem
          (writeMem m
            (ReferenceMut.deref_mut copyBorrowBits mutBorrowCast
              (ReferenceMut.new mutBorrowCast p)) v) p = v) := by
  refine ⟨rfl, fun m p v => ?_⟩
  simp [readMem, writeMem, ReferenceMut.deref_mut, ReferenceMut.new,
    mutBorrowCast, transmute]

/-- Claim C3: both constructors store exactly the result of the whole-value
reinterpretation operation `cast` applied to the argument, and for the
built-in borrow impls the stored bits equal the argument's bits unchanged. -/
theorem c3_new_stores_cast :
    (∀ (α β : Type) (L : LifetimeCast α β) (s : α),
        (Reference.new L s).val = L.cast s
      ∧ (ReferenceMut.new L s).val = L.cast s)
    ∧ (∀ p : Nat,
        (Reference.new sharedBorrowCast p).val = p
      ∧ (ReferenceMut.new mutBorrowCast p).val = p) :=
  ⟨fun _ _ _ _ => ⟨rfl, rfl⟩, fun _ => ⟨rfl, rfl⟩⟩

/-- Claim C4: by Rust's variance computation applied to the declared fields
`(T, PhantomData<&'a mut T>)`, both `Reference<'a, T>` and
`ReferenceMut<'a, T>` are covariant in the lifetime parameter `'a` and
invariant in the type parameter `T`. -/
theorem c4_variance_covariant_lifetime_invariant_type :
    structLtParamVariance Reference.fields 0 = Variance.covariant
    ∧ structTyParamVariance Reference.fields 0 = Variance.invariant
    ∧ structLtParamVariance ReferenceMut.fields 0 = Variance.covariant
    ∧ structTyParamVariance ReferenceMut.fields 0 = Variance.invariant := by
  decide

/-- Claim C5: read access through either wrapper's dereference exists, among
the types covered by the built-in capability impls, exactly for the `Copy`
ones (in particular it exists for the shared borrow `&'static u32` and not
for the exclusive borrow `&'static mut u32`), and it returns the result of
the read-only reinterpretation operation `cast_reference` applied to the
stored value. -/
theorem c5_read_access_copy_bound_and_cast_reference :
    (∀ t, referenceDerefAvailable t = (hasLifetimeCastImpl t && t.isCopy))
    ∧ referenceDerefAvailable (RustTy.sharedRef RustTy.u32) = true
    ∧ referenceDerefAvailable (RustTy.mutRef RustTy.u32) = false
    ∧ (∀ (α γ : Type) (c : Copy α) (L : LifetimeCast α γ) (v : α) (u : Unit),
        Reference.deref c L ⟨v, u⟩ = L.cast_reference v
      ∧ ReferenceMut.deref c L ⟨v, u⟩ = L.cast_reference v) :=
  ⟨fun _ => rfl, rfl, rfl, fun _ _ _ _ _ _ => ⟨rfl, rfl⟩⟩

/-- Claim C6: for the built-in capability impls for shared and exclusive
borrows, each of `cast`, `cast_reference` and `cast_reference_mut` is a raw
bit-layout reinterpretation: it returns its argument's bit pattern
unchanged, hence a borrow designating the same underlying payload (reading
memory through the result reads the original payload). -/
theorem c6_builtin_casts_are_bit_identity :
    ∀ (b : Nat),
      sharedBorrowCast.cast b = b
    ∧ sharedBorrowCast.cast_reference b = b
    ∧ sharedBorrowCast.cast_reference_mut b = b
    ∧ mutBorrowCast.cast b = b
    ∧ mutBorrowCast.cast_reference b = b
    ∧ mutBorrowCast.cast_reference_mut b = b
    ∧ (∀ m : Mem,
        readMem m (sharedBorrowCast.cast b) = readMem m b
      ∧ readMem m (mutBorrowCast.cast_reference_mut b) = readMem m b) :=
  fun _ => ⟨rfl, rfl, rfl, rfl, rfl, rfl, fun _ => ⟨rfl, rfl⟩⟩

/-- Claim C7: every public operation, translated into the error monad, is
total and returns `.ok` of its pure result on every input — no operation has
a failure point at runtime. -/
theorem c7_no_runtime_failure :
    ∀ (α β γ : Type) (L : LifetimeCast α β) (s : α) (c : Copy β)
      (L2 : LifetimeCast β γ) (r : Reference β) (rm : ReferenceMut β),
      Reference.newE L s = .ok (Reference.new L s)
    ∧ ReferenceMut.newE L s = .ok (ReferenceMut.new L s)
    ∧ Reference.derefE c L2 r = .ok (Reference.deref c L2 r)
    ∧ ReferenceMut.derefE c L2 rm = .ok (ReferenceMut.deref c L2 rm)
    ∧ ReferenceMut.derefMutE c L2 rm = .ok (ReferenceMut.deref_mut c L2 rm) :=
  fun _ _ _ _ _ _ _ _ _ => ⟨rfl, rfl, rfl, rfl, rfl⟩

/-- Claim C8: every public operation, translated with explicit memory
passing, is a pure deterministic transformation: on any memory it returns
exactly the value determined by its arguments and leaves the memory
unchanged. -/
theorem c8_operations_pure_deterministic :
    ∀ (α β γ : Type) (L : LifetimeCast α β) (s : α) (c : Copy β)
      (L2 : LifetimeCast β γ) (r : Reference β) (rm : ReferenceMut β) (m : Mem),
      Reference.newS L s m = (Reference.new L s, m)
    ∧ ReferenceMut.newS L s m = (ReferenceMut.new L s, m)
    ∧ Reference.derefS c L2 r m = (Reference.deref c L2 r, m)
    ∧ ReferenceMut.derefS c L2 rm m = (ReferenceMut.deref c L2 rm, m)
    ∧ ReferenceMut.derefMutS c L2 rm m = (ReferenceMut.deref_mut c L2 rm, m) :=
  fun _ _ _ _ _ _ _ _ _ _ => ⟨rfl, rfl, rfl, rfl, rfl⟩

/-- Claim C9: the `Deref` impl of `ReferenceMut` is extensionally equal to
the `Deref` impl of `Reference`: for every stored value (and every
capability and `Copy` evidence), dereferencing a `ReferenceMut` returns the
same reinterpreted reference as dereferencing a `Reference` holding that
value. -/
theorem c9_mut_deref_equals_immutable_deref :
    ∀ (α γ : Type) (c : Copy α) (L : LifetimeCast α γ) (v : α),
      ReferenceMut.deref c L ⟨v, ()⟩ = Reference.deref c L ⟨v, ()⟩ :=
  fun _ _ _ _ _ => rfl

/-- Claim C10: on a single `ReferenceMut` wrapper whose stored type
satisfies the accessors' bounds (e.g. a stored shared borrow, which is
`Copy`), the read and write accessors alias the same storage slot: after
assigning `w` through the place returned by `deref_mut`, reading through the
same wrapper's `deref` (and the `deref_mut` place itself) yields `w`. -/
theorem c10_read_after_write_on_wrapper :
    referenceMutDerefAvailable (RustTy.sharedRef RustTy.u32) = true
    ∧ referenceMutDerefMutAvailable (RustTy.sharedRef RustTy.u32) = true
    ∧ (∀ (p w : Nat),
        ReferenceMut.deref copyBorrowBits sharedBorrowCast
          (mutAssign (ReferenceMut.new sharedBorrowCast p) w) = w
      ∧ ReferenceMut.deref_mut copyBorrowBits sharedBorrowCast
          (mutAssign (ReferenceMut.new sharedBorrowCast p) w) = w) :=
  ⟨rfl, rfl, fun _ _ => ⟨rfl, rfl⟩⟩
